import Mathlib

/-!
Verification of the resilient request dispatcher of the AINative Go SDK
(package ainative): the error taxonomy (errors.go), the client constructor
and request dispatcher (client.go), the ZeroDB service methods (zerodb.go)
and the JWT inspection helpers (auth.go), shallowly embedded in Lean.

Machine integers of the Go source (int, int64, time.Duration in
nanoseconds, HTTP status codes) are modelled as Int; Go strings as String;
Go maps and slices as association lists and lists; a Go nil pointer as
Option.none.  Floating point vector components are payload the SDK never
computes with, so they are modelled by their IEEE-754 bit pattern.
-/

namespace ZeroDBGoSDK

/-- A float64 payload value, identified by its 64-bit pattern; the SDK
passes vector components through without arithmetic on them. -/
structure F64 where
  bits : Nat
deriving Repr, DecidableEq, Inhabited

/-- APIError of errors.go: the decoded error response of the platform. -/
structure APIError where
  statusCode : Int
  message : String
  code : String
  details : List (String × String)
  requestID : String
  timestamp : String
deriving Repr, DecidableEq, Inhabited

/-- The Go error values the SDK produces.  In Go every error is an
interface value; the constructors here separate the concrete dynamic
types: plain fmt.Errorf values without and with a wrapped cause, the four
typed errors of errors.go, transport errors of the HTTP layer and context
cancellation errors.  The Value payload (interface left empty) of
ValidationError is not modelled. -/
inductive GoError where
  | errorf (msg : String)
  | wrapped (msg : String) (cause : GoError)
  | api (e : APIError)
  | validation (field msg : String)
  | network (msg : String) (cause : Option GoError)
  | config (field msg : String)
  | transport (msg : String)
  | ctxErr (msg : String)
deriving Repr, Inhabited

/-- Model of errors.As with a target of type ConfigError: true when the
unwrap chain of the error reaches a ConfigError value. -/
def GoError.isConfigError : GoError → Bool
  | .config _ _ => true
  | .wrapped _ c => c.isConfigError
  | .network _ (some c) => c.isConfigError
  | _ => false

/-- Model of errors.As with a target of type NetworkError. -/
def GoError.isNetworkError : GoError → Bool
  | .network _ _ => true
  | .wrapped _ c => c.isNetworkError
  | _ => false

/-- Model of errors.As with a target of type APIError. -/
def GoError.isAPIError : GoError → Bool
  | .api _ => true
  | .wrapped _ c => c.isAPIError
  | .network _ (some c) => c.isAPIError
  | _ => false

/-- Model of errors.Unwrap: fmt.Errorf with a %w verb and
NetworkError.Unwrap expose a cause, the other values none. -/
def GoError.unwrapOnce : GoError → Option GoError
  | .wrapped _ c => some c
  | .network _ c => c
  | _ => none

/-- IsServerError of errors.go: statusCode in 500..599. -/
def APIError.IsServerError (e : APIError) : Bool :=
  decide (500 ≤ e.statusCode ∧ e.statusCode < 600)

/-- IsRateLimitError of errors.go: statusCode 429. -/
def APIError.IsRateLimitError (e : APIError) : Bool :=
  decide (e.statusCode = 429)

/-- IsRetryable of errors.go: a server error or a rate limit error. -/
def APIError.IsRetryable (e : APIError) : Bool :=
  e.IsServerError || e.IsRateLimitError

/-- IsAuthenticationError of errors.go: status 401 or 403. -/
def APIError.IsAuthenticationError (e : APIError) : Bool :=
  decide (e.statusCode = 401) || decide (e.statusCode = 403)

/-- IsClientError of errors.go: statusCode in 400..499. -/
def APIError.IsClientError (e : APIError) : Bool :=
  decide (400 ≤ e.statusCode ∧ e.statusCode < 500)

/-- The retry condition NewClient installs on the HTTP client
(client.go, AddRetryCondition): retry when the attempt returned a non-nil
error, else when the status is at least 500 or equals 429. -/
def retryConditionFn (errNonNil : Bool) (status : Int) : Bool :=
  if errNonNil then true
  else decide (status ≥ 500) || decide (status = 429)

/-- Outcome of one HTTP attempt as the retry condition sees it: a non-nil
transport error, or a response with a status code. -/
inductive AttemptOutcome where
  | netErr (msg : String)
  | http (status : Int)
deriving Repr, DecidableEq

/-- The retry condition applied to an attempt outcome; on a transport
error the response carries status code 0. -/
def AttemptOutcome.retryable : AttemptOutcome → Bool
  | .netErr _ => retryConditionFn true 0
  | .http s => retryConditionFn false s

/-- Modelled from the spec: the bounded retry loop of the third-party HTTP
client that NewClient configures with SetRetryCount maxRetries — an
attempt is followed by a retry exactly when the installed retry condition
holds for its outcome and retries remain, so at most maxRetries + 1
attempts happen.  Given the stream of attempt outcomes, returns the number
of attempts the loop makes. -/
def restyAttempts (cond : AttemptOutcome → Bool) :
    Nat → (Nat → AttemptOutcome) → Nat
  | 0, _ => 1
  | m + 1, o => if cond (o 0) then 1 + restyAttempts cond m (fun i => o (i + 1)) else 1

/-- Mutable per-client state the dispatcher touches, reduced to what the
claims observe: how many rate limiter tokens were handed out and how many
HTTP exchanges were started. -/
structure World where
  tokensConsumed : Nat
  requestsSent : Nat
deriving Repr, DecidableEq, Inhabited

/-- Environment of one call to the dispatcher: what the HTTP layer would
answer.  transportErr set means the send returned a non-nil error and no
response; otherwise the response has a status code, the state of the
SetError sink after the body decode attempt (zero valued when the body did
not decode into the error shape), the X-Request-ID header value, and the
decoded success body when one decodes. -/
structure Exchange (α : Type) where
  transportErr : Option String
  status : Int
  errSink : APIError
  headerRequestID : String
  resultBody : Option α
deriving Repr, Inhabited

/-- ASCII upper-casing of one character, as Go strings.ToUpper acts on the
ASCII range; the method switch only ever compares against ASCII verbs. -/
def charToUpper (c : Char) : Char :=
  if 97 ≤ c.toNat ∧ c.toNat ≤ 122 then Char.ofNat (c.toNat - 32) else c

/-- Model of Go strings.ToUpper restricted to ASCII. -/
def stringsToUpper (s : String) : String :=
  ⟨s.data.map charToUpper⟩

/-- The five verbs the dispatcher switch accepts, after upper-casing. -/
def supportedMethod (m : String) : Bool :=
  ["GET", "POST", "PUT", "DELETE", "PATCH"].contains (stringsToUpper m)

/-- Client.makeRequest of client.go: start a span (not modelled), wait on
the rate limiter (consuming a token unless the context is already
cancelled), dispatch on the upper-cased method — an unsupported verb
returns a plain formatted error after the token was consumed — then send,
wrap a transport error, and on a response classify: status at least 400
yields an APIError carrying the raw status (falling back to a generic
message and the X-Request-ID header when the error body did not decode),
any other status is success, with the result sink filled only for 2xx. -/
def makeRequest {α : Type} (w : World) (ctxCancelled : Bool)
    (method _path : String) (env : Exchange α) (sink : α) :
    World × α × Option GoError :=
  if ctxCancelled then
    (w, sink, some (.wrapped "rate limit wait failed" (.ctxErr "context canceled")))
  else
    let w1 : World := { w with tokensConsumed := w.tokensConsumed + 1 }
    if supportedMethod method then
      let w2 : World := { w1 with requestsSent := w1.requestsSent + 1 }
      match env.transportErr with
      | some msg => (w2, sink, some (.wrapped "request failed" (.transport msg)))
      | none =>
        if 400 ≤ env.status then
          if env.errSink.message ≠ "" then
            (w2, sink, some (.api { env.errSink with statusCode := env.status }))
          else
            (w2, sink, some (.api
              { statusCode := env.status
                message := "API request failed with status " ++ toString env.status
                code := ""
                details := []
                requestID := env.headerRequestID
                timestamp := "" }))
        else
          let sink := if 200 ≤ env.status ∧ env.status ≤ 299
            then env.resultBody.getD sink else sink
          (w2, sink, none)
    else
      (w1, sink, some (.errorf ("unsupported HTTP method: " ++ method)))

/-- Project ownership information (zerodb.go). -/
structure ProjectOwner where
  userID : String
  email : String
  organization : String
deriving Repr, DecidableEq, Inhabited

/-- Project statistics (zerodb.go); times are Unix nanoseconds. -/
structure ProjectStats where
  vectorCount : Int
  memoryCount : Int
  storageSize : Int
  lastAccess : Option Int
deriving Repr, DecidableEq, Inhabited

/-- A ZeroDB project (zerodb.go); the status is the ProjectStatus string. -/
structure Project where
  id : String
  name : String
  description : String
  status : String
  metadata : List (String × String)
  createdAt : Int
  updatedAt : Int
  owner : Option ProjectOwner
  stats : Option ProjectStats
deriving Repr, DecidableEq, Inhabited

/-- HealthResponse of client.go. -/
structure HealthResponse where
  status : String
  version : String
  timestamp : Int
  services : List (String × String)
deriving Repr, DecidableEq, Inhabited

/-- LoginRequest of auth.go. -/
structure LoginRequest where
  username : String
  password : String
deriving Repr, DecidableEq, Inhabited

/-- TokenResponse of auth.go; times are Unix nanoseconds, expiresIn is in
seconds. -/
structure TokenResponse where
  accessToken : String
  tokenType : String
  expiresIn : Int
  refreshToken : String
  scope : String
  issuedAt : Int
  expiresAt : Int
deriving Repr, DecidableEq, Inhabited

/-- VectorItem of zerodb.go. -/
structure VectorItem where
  id : String
  vector : List F64
  metadata : List (String × String)
deriving Repr, DecidableEq, Inhabited

/-- VectorSearchRequest of zerodb.go; ns is the JSON namespace field. -/
structure VectorSearchRequest where
  vector : List F64
  topK : Int
  ns : String
  filter : List (String × String)
  includeMetadata : Bool
  includeValues : Bool
deriving Repr, DecidableEq, Inhabited

/-- VectorSearchMatch of zerodb.go. -/
structure VectorSearchMatch where
  id : String
  score : F64
  vector : List F64
  metadata : List (String × String)
deriving Repr, DecidableEq, Inhabited

/-- VectorSearchResponse of zerodb.go; matchItems is the JSON matches
field and ns the JSON namespace field. -/
structure VectorSearchResponse where
  matchItems : List VectorSearchMatch
  ns : String
deriving Repr, DecidableEq, Inhabited

/-- UpsertVectorsRequest of zerodb.go; ns is the JSON namespace field. -/
structure UpsertVectorsRequest where
  vectors : List VectorItem
  ns : String
deriving Repr, DecidableEq, Inhabited

/-- UpsertVectorsResponse of zerodb.go; ns is the JSON namespace field. -/
structure UpsertVectorsResponse where
  upsertedCount : Int
  ns : String
deriving Repr, DecidableEq, Inhabited

/-- MemoryItem of zerodb.go; the priority is the MemoryPriority string. -/
structure MemoryItem where
  id : String
  content : String
  title : String
  tags : List String
  priority : String
  metadata : List (String × String)
  createdAt : Int
  updatedAt : Int
deriving Repr, DecidableEq, Inhabited

/-- SearchMemoryRequest of zerodb.go. -/
structure SearchMemoryRequest where
  query : String
  limit : Int
  tags : List String
  priority : String
  semantic : Bool
deriving Repr, DecidableEq, Inhabited

/-- SearchMemoryResponse of zerodb.go. -/
structure SearchMemoryResponse where
  results : List MemoryItem
  total : Int
deriving Repr, DecidableEq, Inhabited

/-- Result of a service method that takes a caller-owned request struct:
the final world, the final state of the caller-owned request struct (the
Go method may mutate it in place through the pointer), the result pointer
and the returned error. -/
structure Dispatched (ρ α : Type) where
  world : World
  finalReq : Option ρ
  result : Option α
  err : Option GoError
deriving Repr

/-- ProjectsService.Get of zerodb.go: validate the project id, dispatch a
GET and return either the decoded project or the error. -/
def ProjectsService.Get (w : World) (ctx : Bool) (projectID : String)
    (env : Exchange Project) : World × Option Project × Option GoError :=
  if projectID = "" then
    (w, none, some (.validation "project_id" "project ID is required"))
  else
    let r := makeRequest w ctx "GET" ("/api/v1/zerodb/projects/" ++ projectID)
      env (default : Project)
    match r.2.2 with
    | some e => (r.1, none, some e)
    | none => (r.1, some r.2.1, none)

/-- Client.Health of client.go: GET /health, return the decoded health
response or the error. -/
def Client.Health (w : World) (ctx : Bool) (env : Exchange HealthResponse) :
    World × Option HealthResponse × Option GoError :=
  let r := makeRequest w ctx "GET" "/health" env (default : HealthResponse)
  match r.2.2 with
  | some e => (r.1, none, some e)
  | none => (r.1, some r.2.1, none)

/-- AuthService.Login of auth.go: validate the request, POST it, then fill
ExpiresAt from IssuedAt plus ExpiresIn seconds and return the token. -/
def AuthService.Login (w : World) (ctx : Bool) (req : Option LoginRequest)
    (env : Exchange TokenResponse) :
    World × Option TokenResponse × Option GoError :=
  match req with
  | none => (w, none, some (.validation "request" "request cannot be nil"))
  | some r =>
    if r.username = "" then
      (w, none, some (.validation "username" "username is required"))
    else if r.password = "" then
      (w, none, some (.validation "password" "password is required"))
    else
      let res := makeRequest w ctx "POST" "/api/v1/auth/login" env
        (default : TokenResponse)
      match res.2.2 with
      | some e => (res.1, none, some e)
      | none =>
        let tok := res.2.1
        (res.1, some { tok with expiresAt := tok.issuedAt + tok.expiresIn * 1000000000 },
          none)

/-- VectorsService.Upsert of zerodb.go: validate project id, request and
vectors, then POST the request and return the decoded response. -/
def VectorsService.Upsert (w : World) (ctx : Bool) (projectID : String)
    (req : Option UpsertVectorsRequest) (env : Exchange UpsertVectorsResponse) :
    World × Option UpsertVectorsResponse × Option GoError :=
  if projectID = "" then
    (w, none, some (.validation "project_id" "project ID is required"))
  else
    match req with
    | none => (w, none, some (.validation "request" "request cannot be nil"))
    | some r =>
      if r.vectors.isEmpty then
        (w, none, some (.validation "vectors" "vectors cannot be empty"))
      else
        let res := makeRequest w ctx "POST"
          ("/api/v1/zerodb/projects/" ++ projectID ++ "/vectors") env
          (default : UpsertVectorsResponse)
        match res.2.2 with
        | some e => (res.1, none, some e)
        | none => (res.1, some res.2.1, none)

/-- VectorsService.Search of zerodb.go: validate project id, request and
vector, default TopK to 5 when it is not positive — mutating the caller
owned request in place — then POST the mutated request. -/
def VectorsService.Search (w : World) (ctx : Bool) (projectID : String)
    (req : Option VectorSearchRequest) (env : Exchange VectorSearchResponse) :
    Dispatched VectorSearchRequest VectorSearchResponse :=
  if projectID = "" then
    ⟨w, req, none, some (.validation "project_id" "project ID is required")⟩
  else
    match req with
    | none => ⟨w, none, none, some (.validation "request" "request cannot be nil")⟩
    | some r =>
      if r.vector.isEmpty then
        ⟨w, some r, none, some (.validation "vector" "vector cannot be empty")⟩
      else
        let r := if r.topK ≤ 0 then { r with topK := 5 } else r
        let res := makeRequest w ctx "POST"
          ("/api/v1/zerodb/projects/" ++ projectID ++ "/vectors/search") env
          (default : VectorSearchResponse)
        match res.2.2 with
        | some e => ⟨res.1, some r, none, some e⟩
        | none => ⟨res.1, some r, some res.2.1, none⟩

/-- MemoryService.Search of zerodb.go: validate request and query, default
Limit to 10 when it is 0 — mutating the caller owned request in place —
then POST the mutated request. -/
def MemoryService.Search (w : World) (ctx : Bool)
    (req : Option SearchMemoryRequest) (env : Exchange SearchMemoryResponse) :
    Dispatched SearchMemoryRequest SearchMemoryResponse :=
  match req with
  | none => ⟨w, none, none, some (.validation "request" "request cannot be nil")⟩
  | some r =>
    if r.query = "" then
      ⟨w, some r, none, some (.validation "query" "query is required")⟩
    else
      let r := if r.limit = 0 then { r with limit := 10 } else r
      let res := makeRequest w ctx "POST" "/api/v1/memory/search" env
        (default : SearchMemoryResponse)
      match res.2.2 with
      | some e => ⟨res.1, some r, none, some e⟩
      | none => ⟨res.1, some r, some res.2.1, none⟩

/-- RetryConfig of client.go; durations in nanoseconds. -/
structure RetryConfig where
  maxRetries : Int
  initialDelay : Int
  maxDelay : Int
  backoffMultiplier : Rat
  jitter : Bool
deriving Repr, DecidableEq, Inhabited

/-- Config of client.go.  The optional HTTPClient and Tracer pointers are
modelled by their presence; timeout is in nanoseconds. -/
structure Config where
  apiKey : String
  apiSecret : String
  baseURL : String
  organizationID : String
  projectID : String
  hasCustomHTTPClient : Bool
  timeout : Int
  retryConfig : Option RetryConfig
  rateLimit : Int
  hasCustomTracer : Bool
  debug : Bool
deriving Repr, DecidableEq, Inhabited

/-- DefaultBaseURL of client.go. -/
def DefaultBaseURL : String := "https://api.ainative.studio"

/-- DefaultTimeout of client.go: 30 seconds in nanoseconds. -/
def DefaultTimeout : Int := 30 * 1000000000

/-- DefaultMaxRetries of client.go. -/
def DefaultMaxRetries : Int := 3

/-- DefaultRateLimit of client.go. -/
def DefaultRateLimit : Int := 100

/-- The retry configuration NewClient falls back to when the config
carries none (client.go). -/
def fallbackRetryConfig : RetryConfig :=
  { maxRetries := DefaultMaxRetries
    initialDelay := 100 * 1000000
    maxDelay := 10 * 1000000000
    backoffMultiplier := 2
    jitter := true }

/-- Model of Go url.Parse succeeding: url.Parse rejects a URL containing
an ASCII control character and accepts other strings (possibly as opaque
references), which is the only aspect the constructor observes. -/
def urlParseOk (s : String) : Bool :=
  s.toList.all fun c => decide (32 ≤ c.toNat) && decide (c.toNat ≠ 127)

/-- The constructed client, reduced to what the claims observe: the
normalized configuration it keeps, the retry configuration it installs,
the token bucket parameters (rate and burst both equal the configured
rate limit) and the Authorization header value. -/
structure Client where
  config : Config
  retry : RetryConfig
  limiterRate : Int
  limiterBurst : Int
  authHeader : String
deriving Repr, DecidableEq, Inhabited

/-- NewClient of client.go: reject a nil config and an empty API key with
plain formatted errors, write the BaseURL, Timeout and RateLimit defaults
into the caller supplied Config in place, validate the base URL, then
build the client.  Returns the final state of the caller owned Config and
either the client or the error. -/
def NewClient (cfg : Option Config) : Option Config × Except GoError Client :=
  match cfg with
  | none => (none, .error (.errorf "config cannot be nil"))
  | some c =>
    if c.apiKey = "" then (some c, .error (.errorf "API key is required"))
    else
      let c := { c with baseURL := if c.baseURL = "" then DefaultBaseURL else c.baseURL }
      let c := { c with timeout := if c.timeout = 0 then DefaultTimeout else c.timeout }
      let c := { c with rateLimit := if c.rateLimit = 0 then DefaultRateLimit else c.rateLimit }
      if urlParseOk c.baseURL then
        let retry := c.retryConfig.getD fallbackRetryConfig
        (some c, .ok
          { config := c
            retry := retry
            limiterRate := c.rateLimit
            limiterBurst := c.rateLimit
            authHeader :=
              if c.apiSecret ≠ "" then "Bearer " ++ c.apiKey ++ ":" ++ c.apiSecret
              else "Bearer " ++ c.apiKey })
      else
        (some c, .error (.wrapped "invalid base URL" (.errorf "parse error")))

/-- TokenClaims of auth.go: the custom claims plus the registered expiry
claim, an optional Unix time in seconds. -/
structure TokenClaims where
  userID : String
  email : String
  organization : String
  role : String
  permissions : List String
  expiresAt : Option Int
deriving Repr, DecidableEq, Inhabited

/-- Outcome of the third-party jwt ParseUnverified call on a token string:
either the decoded claims or a parse error message.  The structural
base64 and JSON decoding happens inside the golang-jwt library, outside
this repository, so a token string is represented by its parse outcome. -/
inductive JWTParse where
  | ok (claims : TokenClaims)
  | fail (msg : String)
deriving Repr, DecidableEq, Inhabited

/-- ParseToken of auth.go: wrap a parse failure, otherwise return the
claims (the type assertion on the claims object always succeeds because
ParseUnverified was handed a TokenClaims value). -/
def ParseToken : JWTParse → Except GoError TokenClaims
  | .fail m => .error (.wrapped "failed to parse token" (.errorf m))
  | .ok c => .ok c

/-- IsTokenExpired of auth.go: on a parse error return true together with
the error; with no expiry claim return false with no error; otherwise
whether the expiry lies strictly before now (Unix seconds). -/
def IsTokenExpired (p : JWTParse) (now : Int) : Bool × Option GoError :=
  match ParseToken p with
  | .error e => (true, some e)
  | .ok c =>
    match c.expiresAt with
    | none => (false, none)
    | some t => (decide (t < now), none)

/-- GetTokenExpirationTime of auth.go: on a parse error return the error;
with no expiry claim return neither a time nor an error; otherwise the
expiry time. -/
def GetTokenExpirationTime (p : JWTParse) : Option Int × Option GoError :=
  match ParseToken p with
  | .error e => (none, some e)
  | .ok c =>
    match c.expiresAt with
    | none => (none, none)
    | some t => (some t, none)

/-- Sample environment: a clean 200 exchange. -/
def envOkU : Exchange Unit :=
  { transportErr := none, status := 200, errSink := default,
    headerRequestID := "", resultBody := some () }

/-- Sample environment: a 300 response, no transport error. -/
def env300 : Exchange Unit :=
  { transportErr := none, status := 300, errSink := default,
    headerRequestID := "", resultBody := none }

/-- Sample environment: a 503 response whose body did not decode into the
error shape, with an X-Request-ID header. -/
def env503 : Exchange Unit :=
  { transportErr := none, status := 503, errSink := default,
    headerRequestID := "req-1", resultBody := none }

/-- Sample environment: the send failed with connection refused. -/
def envRefused : Exchange Unit :=
  { transportErr := some "connection refused", status := 0, errSink := default,
    headerRequestID := "", resultBody := none }

/-- Sample environment: the send failed with a DNS failure. -/
def envDNS : Exchange Unit :=
  { transportErr := some "no such host", status := 0, errSink := default,
    headerRequestID := "", resultBody := none }

/-- Claim C1 (amended): a dispatcher call with an unsupported method (after
upper-casing) fails immediately with the plain formatted error
unsupported HTTP method — not a typed ConfigError — and no HTTP attempt
and hence no retry happens, the environment never being consulted; but one
rate limiter token has already been consumed, because the rate limiter
wait precedes the method validation in makeRequest. -/
theorem makeRequest_unsupportedMethod {α : Type} (w : World) (m p : String)
    (env : Exchange α) (sink : α) (h : supportedMethod m = false) :
    makeRequest w false m p env sink
      = ({ w with tokensConsumed := w.tokensConsumed + 1 }, sink,
          some (.errorf ("unsupported HTTP method: " ++ m))) := by
  simp [makeRequest, h]

/-- Claim C1 witness: the amended theorem evaluated at the verb CONNECT on
a fresh world. -/
theorem makeRequest_unsupportedMethod_witness :
    makeRequest (⟨0, 0⟩ : World) false "CONNECT" "/x" envOkU ()
      = (⟨1, 0⟩, (), some (.errorf "unsupported HTTP method: CONNECT")) :=
  makeRequest_unsupportedMethod ⟨0, 0⟩ "CONNECT" "/x" envOkU () rfl

/-- Claim C1 counterexample: at the concrete call with method FOO the
returned error is a plain errorf value the ConfigError class test rejects,
and the rate limiter state did change — one token was consumed — refuting
both the error-class and the no-token-consumed parts of the claim. -/
theorem makeRequest_unsupportedMethod_cex :
    (makeRequest (⟨0, 0⟩ : World) false "FOO" "/x" envOkU ()).2.2
        = some (.errorf "unsupported HTTP method: FOO")
    ∧ GoError.isConfigError (.errorf "unsupported HTTP method: FOO") = false
    ∧ (makeRequest (⟨0, 0⟩ : World) false "FOO" "/x" envOkU ()).1
        ≠ (⟨0, 0⟩ : World) := by
  refine ⟨rfl, rfl, ?_⟩
  decide

/-- Claim C2 (amended): for a completed exchange the dispatcher returns no
error iff the status code is below 400 — 3xx responses also return
success — and every status of 400 and above yields a typed APIError
carrying the raw status code; when the error body did not decode (the
sink message stayed empty) the APIError uses the generic message and the
X-Request-ID header, so a status of 400 and above is never swallowed. -/
theorem makeRequest_statusClassification {α : Type} (w : World) (m p : String)
    (env : Exchange α) (sink : α) (hm : supportedMethod m = true)
    (ht : env.transportErr = none) :
    ((makeRequest w false m p env sink).2.2 = none ↔ env.status < 400)
    ∧ (400 ≤ env.status →
        ∃ e : APIError, (makeRequest w false m p env sink).2.2 = some (.api e)
          ∧ e.statusCode = env.status)
    ∧ (400 ≤ env.status → env.errSink.message = "" →
        (makeRequest w false m p env sink).2.2 = some (.api
          { statusCode := env.status
            message := "API request failed with status " ++ toString env.status
            code := ""
            details := []
            requestID := env.headerRequestID
            timestamp := "" })) := by
  refine ⟨?_, ?_, ?_⟩
  · by_cases hs : 400 ≤ env.status
    · by_cases hmsg : env.errSink.message = "" <;>
        simp [makeRequest, hm, ht, hs, hmsg]
    · simp [makeRequest, hm, ht, hs]
      omega
  · intro hs
    by_cases hmsg : env.errSink.message = ""
    · refine ⟨{ statusCode := env.status
                message := "API request failed with status " ++ toString env.status
                code := ""
                details := []
                requestID := env.headerRequestID
                timestamp := "" }, ?_, rfl⟩
      simp [makeRequest, hm, ht, hs, hmsg]
    · refine ⟨{ env.errSink with statusCode := env.status }, ?_, rfl⟩
      simp [makeRequest, hm, ht, hs, hmsg]
  · intro hs hmsg
    simp [makeRequest, hm, ht, hs, hmsg]

/-- Claim C2 witness: the amended theorem evaluated on a 503 response with
an undecodable body: the dispatcher returns the fallback APIError carrying
status 503 and the X-Request-ID header. -/
theorem makeRequest_statusClassification_witness :
    (makeRequest (⟨0, 0⟩ : World) false "GET" "/health" env503 ()).2.2
      = some (.api
        { statusCode := 503
          message := "API request failed with status 503"
          code := ""
          details := []
          requestID := "req-1"
          timestamp := "" }) :=
  (makeRequest_statusClassification ⟨0, 0⟩ "GET" "/health" env503 () rfl
    rfl).2.2 (by decide) rfl

/-- Claim C2 counterexample: a completed exchange with status 300 returns
no error although 300 is not in the 200..299 range, refuting the claimed
equivalence between success and a 2xx status. -/
theorem makeRequest_status300_cex :
    (makeRequest (⟨0, 0⟩ : World) false "GET" "/health" env300 ()).2.2 = none
    ∧ ¬(200 ≤ (300 : Int) ∧ (300 : Int) ≤ 299) :=
  ⟨rfl, by decide⟩

/-- Every run of the bounded retry loop makes at least one attempt. -/
theorem restyAttempts_pos (cond : AttemptOutcome → Bool) :
    ∀ (m : Nat) (o : Nat → AttemptOutcome), 1 ≤ restyAttempts cond m o := by
  intro m
  induction m with
  | zero => intro o; simp [restyAttempts]
  | succ m ih =>
    intro o
    by_cases h : cond (o 0) = true
    · simp only [restyAttempts, h, if_true]
      have := ih fun i => o (i + 1)
      omega
    · simp [restyAttempts, h]

/-- Claim C3 (amended): IsRetryable of APIError holds exactly for a status
in 500..599 or 429, as the claim states; the retry condition installed on
the HTTP client however fires for any attempt that errored, for any
status of at least 500 with no upper bound, or for status 429; and the
bounded retry loop performs attempt i+1 exactly when attempt i happened,
its outcome satisfied the retry condition, and i is below maxRetries. -/
theorem retryability_characterization :
    (∀ e : APIError, e.IsRetryable = true ↔
      (500 ≤ e.statusCode ∧ e.statusCode ≤ 599) ∨ e.statusCode = 429)
    ∧ (∀ (b : Bool) (s : Int), retryConditionFn b s = true ↔
      (b = true ∨ 500 ≤ s ∨ s = 429))
    ∧ (∀ (m : Nat) (o : Nat → AttemptOutcome) (i : Nat),
      i + 1 < restyAttempts AttemptOutcome.retryable m o ↔
        (i < restyAttempts AttemptOutcome.retryable m o
          ∧ AttemptOutcome.retryable (o i) = true ∧ i < m)) := by
  refine ⟨?_, ?_, ?_⟩
  · intro e
    simp [APIError.IsRetryable, APIError.IsServerError, APIError.IsRateLimitError]
    omega
  · intro b s
    cases b <;> simp [retryConditionFn]
  · intro m
    induction m with
    | zero =>
      intro o i
      constructor
      · intro h
        exact absurd h (by simp [restyAttempts])
      · rintro ⟨-, -, h3⟩
        omega
    | succ m ih =>
      intro o i
      by_cases h0 : AttemptOutcome.retryable (o 0) = true
      · have hrw : restyAttempts AttemptOutcome.retryable (m + 1) o
            = 1 + restyAttempts AttemptOutcome.retryable m (fun i => o (i + 1)) := by
          simp [restyAttempts, h0]
        have hA := restyAttempts_pos AttemptOutcome.retryable m fun i => o (i + 1)
        cases i with
        | zero =>
          rw [hrw]
          exact ⟨fun _ => ⟨by omega, h0, by omega⟩, fun _ => by omega⟩
        | succ j =>
          rw [hrw]
          have IH := ih (fun i => o (i + 1)) j
          constructor
          · intro h
            obtain ⟨a, b, c⟩ := IH.mp (by omega)
            exact ⟨by omega, b, by omega⟩
          · rintro ⟨a, b, c⟩
            have := IH.mpr ⟨by omega, b, by omega⟩
            omega
      · have hrw : restyAttempts AttemptOutcome.retryable (m + 1) o = 1 := by
          simp [restyAttempts, h0]
        rw [hrw]
        constructor
        · intro h
          omega
        · rintro ⟨a, b, -⟩
          have : i = 0 := by omega
          subst this
          exact absurd b h0

/-- Claim C3 counterexample: at status 600 the installed retry condition
fires although 600 is neither in 500..599 nor 429 nor a network failure —
and IsRetryable itself disagrees with the retry condition there — refuting
the claim that the dispatcher retries exactly on network failures, 5xx and
429. -/
theorem retryCondition_status600_cex :
    AttemptOutcome.retryable (.http 600) = true
    ∧ (({ statusCode := 600, message := "", code := "", details := [],
          requestID := "", timestamp := "" } : APIError)).IsRetryable = false
    ∧ ¬((500 ≤ (600 : Int) ∧ (600 : Int) ≤ 599) ∨ (600 : Int) = 429) := by
  refine ⟨rfl, rfl, by decide⟩

/-- Claim C4 (amended): a transport-level failure makes the dispatcher
return the plain wrapped error request failed, whose unwrap chain holds
the original underlying error; the returned value is not of the typed
NetworkError class, which the dispatcher never constructs. -/
theorem makeRequest_transportFailure {α : Type} (w : World) (m p : String)
    (env : Exchange α) (sink : α) (msg : String)
    (hm : supportedMethod m = true) (ht : env.transportErr = some msg) :
    (makeRequest w false m p env sink).2.2
        = some (.wrapped "request failed" (.transport msg))
    ∧ (GoError.wrapped "request failed" (.transport msg)).unwrapOnce
        = some (.transport msg)
    ∧ (GoError.wrapped "request failed" (.transport msg)).isNetworkError
        = false := by
  refine ⟨?_, rfl, rfl⟩
  simp [makeRequest, hm, ht]

/-- Claim C4 witness: the amended theorem evaluated on a DNS failure. -/
theorem makeRequest_transportFailure_witness :
    (makeRequest (⟨0, 0⟩ : World) false "GET" "/health" envDNS ()).2.2
        = some (.wrapped "request failed" (.transport "no such host"))
    ∧ (GoError.wrapped "request failed" (.transport "no such host")).unwrapOnce
        = some (.transport "no such host")
    ∧ (GoError.wrapped "request failed" (.transport "no such host")).isNetworkError
        = false :=
  makeRequest_transportFailure ⟨0, 0⟩ "GET" "/health" envDNS () "no such host"
    (by decide) rfl

/-- Claim C4 counterexample: on a connection-refused transport failure the
dispatcher returns the plain wrapped error, and the NetworkError class
test (errors.As) rejects that value, refuting the claim that a typed
NetworkError is returned. -/
theorem makeRequest_transport_cex :
    (makeRequest (⟨0, 0⟩ : World) false "GET" "/health" envRefused ()).2.2
        = some (.wrapped "request failed" (.transport "connection refused"))
    ∧ GoError.isNetworkError
        (.wrapped "request failed" (.transport "connection refused")) = false :=
  ⟨rfl, rfl⟩

/-- Claim C5 (amended): a nil Config and a Config with an empty APIKey
fail construction immediately with the plain formatted errors of
NewClient — fmt.Errorf values, not values of the typed ConfigError class —
and construction returns before a client, its rate limiter or any network
facility exists. -/
theorem newClient_invalidConfig_fails (c : Config) (h : c.apiKey = "") :
    (NewClient (some c)).2 = .error (.errorf "API key is required")
    ∧ (NewClient none).2 = .error (.errorf "config cannot be nil") := by
  constructor
  · simp [NewClient, h]
  · rfl

/-- Claim C5 witness: the amended theorem evaluated at the zero-valued
Config, whose APIKey is empty. -/
theorem newClient_invalidConfig_fails_witness :
    (NewClient (some (default : Config))).2
        = .error (.errorf "API key is required")
    ∧ (NewClient none).2 = .error (.errorf "config cannot be nil") :=
  newClient_invalidConfig_fails (default : Config) rfl

/-- Claim C5 counterexample: both construction failures return plain
errorf values that the ConfigError class test (errors.As) rejects,
refuting the claimed ConfigError-class error. -/
theorem newClient_error_class_cex :
    (NewClient (some (default : Config))).2
        = .error (.errorf "API key is required")
    ∧ GoError.isConfigError (.errorf "API key is required") = false
    ∧ (NewClient none).2 = .error (.errorf "config cannot be nil")
    ∧ GoError.isConfigError (.errorf "config cannot be nil") = false :=
  ⟨rfl, rfl, rfl, rfl⟩

/-- Claim C6: for ProjectsService.Get, Client.Health and AuthService.Login
exactly one of the result pointer and the error is non-nil on return: the
result option is some exactly when the error option is none. -/
theorem services_exactlyOne_result_or_error :
    ∀ (w : World) (ctx : Bool) (pid : String) (envP : Exchange Project)
      (envH : Exchange HealthResponse) (req : Option LoginRequest)
      (envL : Exchange TokenResponse),
      ((ProjectsService.Get w ctx pid envP).2.1.isSome
          = (ProjectsService.Get w ctx pid envP).2.2.isNone)
      ∧ ((Client.Health w ctx envH).2.1.isSome
          = (Client.Health w ctx envH).2.2.isNone)
      ∧ ((AuthService.Login w ctx req envL).2.1.isSome
          = (AuthService.Login w ctx req envL).2.2.isNone) := by
  intro w ctx pid envP envH req envL
  refine ⟨?_, ?_, ?_⟩
  · by_cases h : pid = ""
    · simp [ProjectsService.Get, h]
    · rcases hmr : makeRequest w ctx "GET" ("/api/v1/zerodb/projects/" ++ pid)
          envP (default : Project) with ⟨w1, a, _ | e⟩ <;>
        simp [ProjectsService.Get, h, hmr]
  · rcases hmr : makeRequest w ctx "GET" "/health" envH
        (default : HealthResponse) with ⟨w1, a, _ | e⟩ <;>
      simp [Client.Health, hmr]
  · rcases req with _ | r
    · simp [AuthService.Login]
    · by_cases hu : r.username = ""
      · simp [AuthService.Login, hu]
      · by_cases hp : r.password = ""
        · simp [AuthService.Login, hu, hp]
        · rcases hmr : makeRequest w ctx "POST" "/api/v1/auth/login" envL
              (default : TokenResponse) with ⟨w1, a, _ | e⟩ <;>
            simp [AuthService.Login, hu, hp, hmr]

/-- Claim C7: VectorsService.Upsert with an empty project id, a nil
request or an empty Vectors slice returns a ValidationError and leaves
the world untouched: the dispatcher is never invoked, so no HTTP request
is made and no rate limiter token is consumed. -/
theorem upsert_preflight_validation (w : World) (ctx : Bool) (pid : String)
    (req : Option UpsertVectorsRequest) (env : Exchange UpsertVectorsResponse)
    (h : pid = "" ∨ req = none ∨ ∃ r, req = some r ∧ r.vectors = []) :
    ∃ f m, VectorsService.Upsert w ctx pid req env
        = (w, none, some (.validation f m)) := by
  rcases h with h | h | ⟨r, hr, hv⟩
  · exact ⟨"project_id", "project ID is required",
      by simp [VectorsService.Upsert, h]⟩
  · subst h
    by_cases hp : pid = ""
    · exact ⟨"project_id", "project ID is required",
        by simp [VectorsService.Upsert, hp]⟩
    · exact ⟨"request", "request cannot be nil",
        by simp [VectorsService.Upsert, hp]⟩
  · subst hr
    by_cases hp : pid = ""
    · exact ⟨"project_id", "project ID is required",
        by simp [VectorsService.Upsert, hp]⟩
    · exact ⟨"vectors", "vectors cannot be empty",
        by simp [VectorsService.Upsert, hp, hv]⟩

/-- Claim C7 witness: the theorem evaluated at a request whose Vectors
slice is empty: the call yields a ValidationError with the world state
unchanged. -/
theorem upsert_preflight_validation_witness :
    ∃ f m, VectorsService.Upsert (⟨0, 0⟩ : World) false "proj-1"
        (some { vectors := [], ns := "" })
        (default : Exchange UpsertVectorsResponse)
        = (⟨0, 0⟩, none, some (.validation f m)) :=
  upsert_preflight_validation ⟨0, 0⟩ false "proj-1"
    (some { vectors := [], ns := "" })
    (default : Exchange UpsertVectorsResponse)
    (Or.inr (Or.inr ⟨_, rfl, rfl⟩))

/-- Claim C8: a token that parses and has no expiry claim is reported not
expired with no error; a token that parses with an expiry strictly in the
past is reported expired; and on a structurally invalid token both
IsTokenExpired and GetTokenExpirationTime return the wrapped decode
error.  A token string is represented by its jwt ParseUnverified outcome,
the decoding itself living in the third-party golang-jwt library. -/
theorem token_expiry_contract :
    ∀ (p : JWTParse) (now : Int),
      (∀ c, p = .ok c → c.expiresAt = none →
        IsTokenExpired p now = (false, none))
      ∧ (∀ c t, p = .ok c → c.expiresAt = some t → t < now →
        IsTokenExpired p now = (true, none))
      ∧ (∀ m, p = .fail m →
        (IsTokenExpired p now).2
            = some (.wrapped "failed to parse token" (.errorf m))
        ∧ (GetTokenExpirationTime p).2
            = some (.wrapped "failed to parse token" (.errorf m))) := by
  intro p now
  refine ⟨?_, ?_, ?_⟩
  · rintro c rfl hc
    simp [IsTokenExpired, ParseToken, hc]
  · rintro c t rfl hc ht
    simp [IsTokenExpired, ParseToken, hc, ht]
  · rintro m rfl
    exact ⟨rfl, rfl⟩

/-- Sample request: a memory search with Limit 0 and other fields set. -/
def memReq0 : SearchMemoryRequest :=
  { query := "q", limit := 0, tags := ["a"], priority := "high", semantic := true }

/-- Sample request: a vector search with TopK 0 and other fields set. -/
def vecReq0 : VectorSearchRequest :=
  { vector := [⟨1⟩], topK := 0, ns := "n", filter := [("k", "v")],
    includeMetadata := true, includeValues := false }

/-- Claim C9: on requests that pass validation the search methods apply
their defaults by mutating the caller-owned request in place before
dispatching — MemoryService.Search turns Limit 0 into 10 and
VectorsService.Search turns a non-positive TopK into 5 — and no other
request field changes, stated by equality with a single-field record
update of the original request. -/
theorem search_defaults_mutation (w : World) (ctx : Bool)
    (req : SearchMemoryRequest) (envM : Exchange SearchMemoryResponse)
    (pid : String) (vreq : VectorSearchRequest)
    (envV : Exchange VectorSearchResponse)
    (hq : req.query ≠ "") (hp : pid ≠ "") (hv : ¬vreq.vector.isEmpty) :
    (MemoryService.Search w ctx (some req) envM).finalReq
        = some { req with limit := if req.limit = 0 then 10 else req.limit }
    ∧ (VectorsService.Search w ctx pid (some vreq) envV).finalReq
        = some { vreq with topK := if vreq.topK ≤ 0 then 5 else vreq.topK } := by
  constructor
  · rcases hmr : makeRequest w ctx "POST" "/api/v1/memory/search" envM
        (default : SearchMemoryResponse) with ⟨w1, a, _ | e⟩ <;>
      by_cases hl : req.limit = 0 <;>
      simp [MemoryService.Search, hq, hmr, hl]
  · rcases hmr : makeRequest w ctx "POST"
        ("/api/v1/zerodb/projects/" ++ pid ++ "/vectors/search") envV
        (default : VectorSearchResponse) with ⟨w1, a, _ | e⟩ <;>
      by_cases hk : vreq.topK ≤ 0 <;>
      simp [VectorsService.Search, hp, hv, hmr, hk]

/-- Claim C9 witness: the theorem evaluated at concrete requests with
Limit 0 and TopK 0: the defaults 10 and 5 are written in and the other
fields are kept. -/
theorem search_defaults_mutation_witness :
    (MemoryService.Search (⟨0, 0⟩ : World) false (some memReq0)
        (default : Exchange SearchMemoryResponse)).finalReq
        = some { memReq0 with limit := 10 }
    ∧ (VectorsService.Search (⟨0, 0⟩ : World) false "p1" (some vecReq0)
        (default : Exchange VectorSearchResponse)).finalReq
        = some { vecReq0 with topK := 5 } :=
  search_defaults_mutation ⟨0, 0⟩ false memReq0
    (default : Exchange SearchMemoryResponse) "p1" vecReq0
    (default : Exchange VectorSearchResponse)
    (by decide) (by decide) (by decide)

/-- Claim C10: with a non-empty APIKey, NewClient writes exactly the three
defaults into the caller-supplied Config in place — an empty BaseURL
becomes the default base URL, a zero Timeout becomes 30 seconds, a zero
RateLimit becomes 100 — and every other Config field is unchanged, stated
by equality with a three-field record update of the original config. -/
theorem newClient_config_defaults (c : Config) (h : c.apiKey ≠ "") :
    (NewClient (some c)).1 = some
      { c with
        baseURL := if c.baseURL = "" then DefaultBaseURL else c.baseURL
        timeout := if c.timeout = 0 then DefaultTimeout else c.timeout
        rateLimit := if c.rateLimit = 0 then DefaultRateLimit else c.rateLimit } := by
  unfold NewClient
  simp only [h, ite_false]
  split_ifs <;> rfl

/-- Sample configuration: a non-empty API key and the three defaulted
fields left at their zero values. -/
def cfg0 : Config :=
  { apiKey := "key-1", apiSecret := "", baseURL := "", organizationID := "org-1",
    projectID := "", hasCustomHTTPClient := false, timeout := 0,
    retryConfig := none, rateLimit := 0, hasCustomTracer := false, debug := false }

/-- Claim C10 witness: the theorem evaluated at a concrete config with
empty BaseURL, zero Timeout and zero RateLimit: the three defaults are
written and all other fields are kept. -/
theorem newClient_config_defaults_witness :
    (NewClient (some cfg0)).1 = some
      { cfg0 with
        baseURL := DefaultBaseURL
        timeout := DefaultTimeout
        rateLimit := DefaultRateLimit } :=
  newClient_config_defaults cfg0 (by decide)

end ZeroDBGoSDK
